import Mathlib

/-!
Shallow embedding of the actor12 runtime core (cancellation tree, envelopes,
message handles, multi-dispatch reply protocol, weak-link sends and the actor
cycle), translated from the Rust sources under src/, together with theorems
settling the specification claims about those components.
-/

set_option maxHeartbeats 1000000

namespace Actor12

/-! ### Cancellation tree (src/cancel.rs)

`CancelReason<T>` pairs a reason value with the caller source location
(`&'static Location`); locations are modelled as opaque numeric identifiers.
-/

structure CancelReason (T : Type) where
  value : T
  location : Nat
deriving DecidableEq, Repr

/-- Model of `State<T>` of a tree node: `Running` or `Cancelled(CancelReason<T>)`. -/
inductive NodeState (T : Type) where
  | running
  | cancelled (reason : CancelReason T)
deriving DecidableEq, Repr

/-- Model of `TreeNode<T>`: an observable state plus a list of child nodes
(`children: Mutex<Vec<Arc<TreeNode<T>>>>`). The `drop` slot is not needed by
the claims (LinkState's Drop calls `token.cancel` directly). -/
inductive Tree (T : Type) where
  | node (state : NodeState T) (children : List (Tree T))

namespace Tree

/-- The node's own state. -/
def state {T : Type} : Tree T → NodeState T
  | .node s _ => s

/-- The node's children list. -/
def children {T : Type} : Tree T → List (Tree T)
  | .node _ cs => cs

/-- Model of `CancelToken::is_cancelled`: true iff the node state is `Cancelled`. -/
def isCancelled {T : Type} (t : Tree T) : Bool :=
  match t.state with
  | .running => false
  | .cancelled _ => true

/-- Model of `CancelToken::reason`: `Some(reason)` iff the node is cancelled. -/
def reasonOf {T : Type} (t : Tree T) : Option (CancelReason T) :=
  match t.state with
  | .running => none
  | .cancelled r => some r

end Tree

mutual

/-- Model of `TreeNode::cancel_with_reason` (src/cancel.rs:227-248): under the
child-lock, transition `Running → Cancelled(reason)` via `send_if_modified`;
exactly when the transition occurred, recursively cancel each child in the
children snapshot with a clone of the reason. An already-`Cancelled` node is
left unchanged. -/
def cancelWithReason {T : Type} (r : CancelReason T) : Tree T → Tree T
  | .node .running cs => .node (.cancelled r) (cancelChildren r cs)
  | .node (.cancelled r0) cs => .node (.cancelled r0) cs

/-- The `for child in children` recursion of `cancel_with_reason`. -/
def cancelChildren {T : Type} (r : CancelReason T) : List (Tree T) → List (Tree T)
  | [] => []
  | c :: cs => cancelWithReason r c :: cancelChildren r cs

end

/-- Model of `TreeNode::child` (src/cancel.rs:172-184): under the child-lock, if the
node is `Running`, create a fresh `Running` node, push it onto the children
list and return it; if already `Cancelled`, return a clone of the node itself
(sharing its cancelled state). Returns `(updated parent, child token)`. -/
def Tree.child {T : Type} : Tree T → Tree T × Tree T
  | .node .running cs =>
      (.node .running (cs ++ [.node .running []]), .node .running [])
  | .node (.cancelled r) cs =>
      (.node (.cancelled r) cs, .node (.cancelled r) cs)

theorem cancelChildren_eq_map {T : Type} (r : CancelReason T) (cs : List (Tree T)) :
    cancelChildren r cs = cs.map (cancelWithReason r) := by
  induction cs with
  | nil => rfl
  | cons c cs ih => simp [cancelChildren, ih]

theorem isCancelled_cancelWithReason {T : Type} (r : CancelReason T) (t : Tree T) :
    (cancelWithReason r t).isCancelled = true := by
  match t with
  | .node .running cs => rfl
  | .node (.cancelled r0) cs => rfl

/-! ### Cancellation observer and the actor cycle (src/cancel.rs, src/actor.rs)

`cancelled_or_dropped` subscribes a watch receiver to the node state and waits
for a `Cancelled` state; if all state senders are dropped first it yields
`None`, otherwise `Some(reason)`. We model the event the observer eventually
produces.
-/

/-- Outcome of the watch observer inside `TreeNode::cancelled_or_dropped`
(src/cancel.rs:209-225): either the state senders were dropped while the node
was still running, or a `Cancelled(reason)` state was observed. -/
inductive ObserverResult (T : Type) where
  | dropped
  | cancelledWith (r : CancelReason T)
deriving DecidableEq, Repr

/-- Model of `TreeNode::cancelled_or_dropped`: `Err(_) → None`,
`Ok(Cancelled(reason)) → Some(reason.clone())`. -/
def cancelledOrDropped {T : Type} : ObserverResult T → Option (CancelReason T)
  | .dropped => none
  | .cancelledWith r => some r

/-- The ready observation produced for a token: once the node is cancelled the
observer fires with its reason; if the state sender goes away while the node
is running the observer yields the dropped outcome. -/
def observerEvent {T : Type} (t : Tree T) : ObserverResult T :=
  match t.reasonOf with
  | some r => .cancelledWith r
  | none => .dropped

/-- The branch of the `tokio::select!` in `Actor::cycle` that fired. -/
inductive Branch where
  | cancelBranch
  | tickBranch
  | msgBranch
deriving DecidableEq, Repr

/-- Result of one `Actor::cycle` iteration: `ControlFlow::Continue(())` after
a tick or after dispatching message `m` via `A::handle`, or
`ControlFlow::Break(reason)`. -/
inductive CycleOutcome (M C : Type) where
  | continueAfterTick
  | continueAfterHandle (m : M)
  | breakWith (r : CancelReason C)
deriving DecidableEq, Repr

/-- Model of `Actor::cycle` (src/actor.rs:118-140): select over three events.
`obs` is the outcome of `ctx.token.cancelled_or_dropped()`, `msg` the value
produced by `ctx.rx.recv()` (`none` = all senders dropped), `defaultReason`
is `Default::default()` for `CancelReason<Cancel>`.
- cancel branch: `ControlFlow::Break(reason.unwrap_or_default())`;
- tick branch: `ControlFlow::Continue(())`;
- message branch: `Some(msg)` dispatches `Self::handle(self, Exec, msg)` then
  continues, `None` breaks with the default reason. -/
def cycle {M C : Type} (defaultReason : CancelReason C) (obs : ObserverResult C)
    (msg : Option M) : Branch → CycleOutcome M C
  | .cancelBranch =>
      match cancelledOrDropped obs with
      | some r => .breakWith r
      | none => .breakWith defaultReason
  | .tickBranch => .continueAfterTick
  | .msgBranch =>
      match msg with
      | some m => .continueAfterHandle m
      | none => .breakWith defaultReason

/-- Model of `Drop for LinkState` (src/link.rs:208-212): the final release of the
refcounted `LinkState` runs `self.token.cancel(A::Cancel::default())`, i.e.
`cancel_with_reason` with the default cancel value and the caller location. -/
def linkStateDrop {C : Type} (defaultValue : C) (loc : Nat) (token : Tree C) : Tree C :=
  cancelWithReason ⟨defaultValue, loc⟩ token

/-! ### Oneshot reply channels and MessageHandle (src/message.rs)

A oneshot receiver is modelled by what is observable at the await point:
still pending, already fired with a value, or closed (sender dropped without
firing). For a pending receiver the environment supplies the eventual
outcome of the await (`Except Unit R`, where the error is `RecvError`).
-/

inductive ReceiverState (R : Type) where
  | pending
  | fired (v : R)
  | closed
deriving DecidableEq, Repr

/-- Model of `MessageError` (src/message.rs:23-33). Timeouts are in abstract duration
units (`Nat`). -/
inductive MessageError where
  | sendFailedErr (msg : String)
  | recvFailedErr
  | timeoutErr (timeout : Nat)
  | alreadyConsumed
deriving DecidableEq, Repr

/-- Model of `MessageHandle<R>` (src/message.rs:15-20). -/
structure MessageHandle (R : Type) where
  receiver : Option (ReceiverState R)
  sent_successfully : Bool
  send_error : Option String
  timeout : Option Nat
deriving DecidableEq, Repr

namespace MessageHandle

/-- Model of `MessageHandle::success` (src/message.rs:37-44): the stored receiver is
the freshly created oneshot receiver in state `rx`. -/
def success {R : Type} (rx : ReceiverState R) : MessageHandle R :=
  { receiver := some rx, sent_successfully := true, send_error := none,
    timeout := none }

/-- Model of `MessageHandle::failed` (src/message.rs:47-54). -/
def failed {R : Type} (error : String) : MessageHandle R :=
  { receiver := none, sent_successfully := false, send_error := some error,
    timeout := none }

/-- Model of `MessageHandle::timeout` (src/message.rs:57-60): fluent setter. -/
def withTimeout {R : Type} (h : MessageHandle R) (d : Nat) : MessageHandle R :=
  { h with timeout := some d }

/-- Model of `MessageHandle::was_sent` (src/message.rs:90-92). -/
def was_sent {R : Type} (h : MessageHandle R) : Bool :=
  h.sent_successfully

/-- Model of `MessageHandle::send_error` accessor (src/message.rs:95-97). -/
def sendErrorOf {R : Type} (h : MessageHandle R) : Option String :=
  h.send_error

/-- Awaiting a oneshot receiver: a fired receiver yields its value at once, a
closed receiver yields `RecvError` at once, and a pending receiver resolves
to the environment-supplied eventual outcome `env`. -/
def awaitReceiver {R : Type} (rx : ReceiverState R) (env : Except Unit R) :
    Except Unit R :=
  match rx with
  | .fired v => .ok v
  | .closed => .error ()
  | .pending => env

/-- Whether awaiting the receiver suspends the caller (only a pending
receiver does). -/
def receiverSuspends {R : Type} (rx : ReceiverState R) : Bool :=
  match rx with
  | .pending => true
  | _ => false

/-- Model of `MessageHandle::reply` (src/message.rs:63-81). `timerFirst` models the
timer of `tokio::time::timeout` firing while the receiver is still pending;
a ready (fired or closed) receiver wins over the timer. -/
def reply {R : Type} (h : MessageHandle R) (timerFirst : Bool)
    (env : Except Unit R) : Except MessageError R :=
  if h.sent_successfully = false then
    .error (.sendFailedErr (h.send_error.getD "Unknown send error"))
  else
    match h.receiver with
    | none => .error .alreadyConsumed
    | some rx =>
        match h.timeout with
        | some d =>
            if receiverSuspends rx && timerFirst then
              .error (.timeoutErr d)
            else
              match awaitReceiver rx env with
              | .ok v => .ok v
              | .error _ => .error .recvFailedErr
        | none =>
            match awaitReceiver rx env with
            | .ok v => .ok v
            | .error _ => .error .recvFailedErr

/-- Model of `oneshot::Receiver::try_recv` outcomes. -/
inductive TryRecvOutcome (R : Type) where
  | gotValue (v : R)
  | empty
  | channelClosed
deriving DecidableEq, Repr

/-- Model of `try_recv` on the modelled receiver state. -/
def tryRecv {R : Type} : ReceiverState R → TryRecvOutcome R
  | .fired v => .gotValue v
  | .pending => .empty
  | .closed => .channelClosed

/-- Model of `MessageHandle::try_reply` (src/message.rs:100-121). Returns the result
together with the handle as it stands afterwards (on `Empty` the receiver is
put back; in every other case it is gone). -/
def tryReply {R : Type} (h : MessageHandle R) :
    Except MessageError (Option R) × MessageHandle R :=
  if h.sent_successfully = false then
    (.error (.sendFailedErr (h.send_error.getD "Unknown error")),
      { h with receiver := none })
  else
    match h.receiver with
    | none => (.error .alreadyConsumed, h)
    | some rx =>
        match tryRecv rx with
        | .gotValue v => (.ok (some v), { h with receiver := none })
        | .empty => (.ok none, { h with receiver := some rx })
        | .channelClosed =>
            (.error (.sendFailedErr "Channel closed"), { h with receiver := none })

/-- Model of `MessageHandle::forget` (src/message.rs:85-87): drop the receiver. -/
def forget {R : Type} (h : MessageHandle R) : MessageHandle R :=
  { h with receiver := none }

end MessageHandle

/-! ### Envelope (src/envelope.rs)

The oneshot reply sender is modelled as an opaque identifier (`Nat`): the
claims about envelopes concern which sender a value travels through, not the
channel mechanics.
-/

/-- Model of `Envelope<T, R>` (src/envelope.rs:10-13): a payload plus a oneshot reply
sender. -/
structure Envelope (T : Type) where
  value : T
  reply : Nat
deriving DecidableEq, Repr

namespace Envelope

/-- Model of `Envelope::map` (src/envelope.rs:43-48). -/
def map {T U : Type} (e : Envelope T) (func : T → U) : Envelope U :=
  { value := func e.value, reply := e.reply }

/-- Model of `Envelope::split` (src/envelope.rs:37-41). -/
def split {T : Type} (e : Envelope T) : T × Nat :=
  (e.value, e.reply)

end Envelope

/-! ### Error taxonomy and the anyhow reply shape (src/error.rs, src/handler.rs) -/

/-- Model of `ActorError` (src/error.rs:10-23). -/
inductive ActorError where
  | dynSendError
  | dead
  | replyTaken
  | asyncReply
deriving DecidableEq, Repr

/-- Model of `anyhow::Result<T>`: `Ok(v)`, or an error which either downcasts to an
`ActorError` (`err (some e)`) or is some other error (`err none`). -/
inductive AnyhowResult (T : Type) where
  | ok (v : T)
  | err (e : Option ActorError)
deriving DecidableEq, Repr

/-- Model of `ActorReply for anyhow::Result<T>::is_async` (src/handler.rs:24-37):
`Ok(_) → false`; `Err(e)` → true iff `e` downcasts to `ActorError` and that
error is the `AsyncReply` marker. -/
def AnyhowResult.is_async {T : Type} : AnyhowResult T → Bool
  | .ok _ => false
  | .err e =>
      match e with
      | some .asyncReply => true
      | some _ => false
      | none => false

/-- Model of `FromError<ActorError> for anyhow::Result<T>` (src/error.rs:31-39). -/
def AnyhowResult.from_err {T : Type} (e : ActorError) : AnyhowResult T :=
  .err (some e)

/-! ### Multi-dispatch and the async-reply protocol (src/multi.rs, src/handler.rs)

`MultiEnvelope::handle` splits the envelope, stores the reply sender in a
take-once cell shared with the handler's `Call`, runs the handler, and then —
unless the returned value reports `is_async()` — takes the cell and sends the
value. A handler interacts with the cell only through `Call::reply_async`
(`Call::take_reply` follows the same take-once discipline). The handler is
modelled as a program that may call `reply_async` (receiving the sentinel it
returns) and finally returns a reply value. Reply senders are opaque `Nat`
identifiers; the take-once cell is `Option Nat`.
-/

/-- A handler body as seen by the dispatcher: either return a reply value, or
call `Call::reply_async` and continue with the sentinel value it returned. -/
inductive HandlerProg (T : Type) where
  | ret (v : AnyhowResult T)
  | replyAsyncThen (k : AnyhowResult T → HandlerProg T)

/-- Model of `Call::reply_async` (src/handler.rs:97-112) acting on the take-once cell:
returns the updated cell, the sender moved into the spawned replying future
(if any), and the sentinel value the call returns. If the cell still holds
the sender, the sender is taken and a child future is spawned that will send
the eventual output, and the call returns `from_err(AsyncReply)`; if the cell
was already taken, nothing is spawned and the call returns
`from_err(ReplyTaken)`. -/
def replyAsyncCall {T : Type} (cell : Option Nat) :
    Option Nat × Option Nat × AnyhowResult T :=
  match cell with
  | some s => (none, some s, AnyhowResult.from_err .asyncReply)
  | none => (none, none, AnyhowResult.from_err .replyTaken)

/-- Run a handler program against the take-once cell, following
`Call::reply_async` for each call: returns the final cell contents, the list
of senders handed to spawned replying futures, and the handler's returned
value. -/
def runHandler {T : Type} : HandlerProg T → Option Nat →
    Option Nat × List Nat × AnyhowResult T
  | .ret v, cell => (cell, [], v)
  | .replyAsyncThen k, cell =>
      match cell with
      | some s =>
          let r := runHandler (k (AnyhowResult.from_err .asyncReply)) none
          (r.1, s :: r.2.1, r.2.2)
      | none => runHandler (k (AnyhowResult.from_err .replyTaken)) none

/-- How the dispatched future of `MultiEnvelope::handle` ends: early return
because `value.is_async()` was true, a send of the returned value through the
taken sender, or a panic of the `once.take().expect(..)` when the cell is
empty although the value is not async-shaped. -/
inductive DispatchEnd (T : Type) where
  | asyncHandoff
  | sentBy (s : Nat) (v : AnyhowResult T)
  | panicked
deriving DecidableEq, Repr

/-- Model of `MultiEnvelope::handle` (src/multi.rs:63-88): store the envelope's reply
sender `s0` in the take-once cell, run the handler, then: if the returned
value `is_async()`, return without touching the cell; otherwise take the cell
(panicking if it is empty) and send the value through the taken sender.
Returns the spawned senders and how the future ended. -/
def multiHandle {T : Type} (prog : HandlerProg T) (s0 : Nat) :
    List Nat × DispatchEnd T :=
  let r := runHandler prog (some s0)
  if r.2.2.is_async then
    (r.2.1, .asyncHandoff)
  else
    match r.1 with
    | some s => (r.2.1, .sentBy s r.2.2)
    | none => (r.2.1, .panicked)

/-- Number of reply-cell consumptions performed by the dispatcher itself. -/
def sentCount {T : Type} : DispatchEnd T → Nat
  | .sentBy _ _ => 1
  | _ => 0

/-- A handler follows the async-reply protocol when the value it finally
returns is async-shaped exactly if the reply cell has been taken by the time
it returns (i.e. the sentinel from a successful `reply_async` is what gets
returned in the async case, and a sync handler does not fabricate the
`AsyncReply` marker). `full` tracks whether the cell still holds the
sender. -/
def protocolFrom {T : Type} : HandlerProg T → Bool → Bool
  | .ret v, full => v.is_async == !full
  | .replyAsyncThen k, full =>
      protocolFrom
        (k (if full then AnyhowResult.from_err .asyncReply
            else AnyhowResult.from_err .replyTaken)) false

/-! ### Weak-link sends (src/message.rs, src/weak.rs)

`weak_send_to` first attempts `upgrade()`; `upgraded` records whether a
strong `Link` still exists. When alive, the behaviour is that of `send_to`,
whose channel-send outcome is the environment parameter `out`.
-/

/-- Outcome of `link.sender().send(..)` on a live link: delivered, or a send
error with its debug rendering. -/
inductive SendOutcome where
  | delivered
  | sendErrorWith (e : String)
deriving DecidableEq, Repr

/-- Model of `SendableMessage for EnvelopeMessage::send_to` (src/message.rs:162-169):
build the envelope, send it; `Ok(())` yields a success handle holding the
fresh (still pending) reply receiver, `Err(e)` yields a failed handle. -/
def envelopeSendTo {R : Type} (out : SendOutcome) : MessageHandle R :=
  match out with
  | .delivered => MessageHandle.success .pending
  | .sendErrorWith e => MessageHandle.failed ("Send failed: " ++ e)

/-- Model of `WeakSendableMessage for EnvelopeMessage::weak_send_to`
(src/message.rs:266-277): upgrade, delegate to `send_to` when alive;
otherwise build `R::from_err(ActorError::Dead)`, fire it through a fresh
oneshot channel, and return a success handle over that receiver.
`fe` is the reply type's `FromError<ActorError>` instance. -/
def envelopeWeakSendTo {R : Type} (upgraded : Bool) (out : SendOutcome)
    (fe : ActorError → R) : MessageHandle R :=
  if upgraded then envelopeSendTo out
  else MessageHandle.success (.fired (fe .dead))

/-- Model of `SendableMessage for HandlerMessage::send_to` (src/message.rs:244-252). -/
def handlerSendTo {R : Type} (out : SendOutcome) : MessageHandle R :=
  match out with
  | .delivered => MessageHandle.success .pending
  | .sendErrorWith e => MessageHandle.failed ("Send failed: " ++ e)

/-- Model of `WeakSendableMessage for HandlerMessage::weak_send_to`
(src/message.rs:287-298): upgrade, delegate when alive; otherwise fire
`Reply::from_err(ActorError::Dead)` through a fresh channel and return a
success handle. -/
def handlerWeakSendTo {R : Type} (upgraded : Bool) (out : SendOutcome)
    (fe : ActorError → R) : MessageHandle R :=
  if upgraded then handlerSendTo out
  else MessageHandle.success (.fired (fe .dead))

/-- Model of `SendableMessage for RelayMessage::send_to` (src/message.rs:202-214):
reply type is `()`; on successful enqueue a fresh channel is fired with `()`
immediately, on failure the handle is failed with "Relay failed". -/
def relaySendTo (out : SendOutcome) : MessageHandle Unit :=
  match out with
  | .delivered => MessageHandle.success (.fired ())
  | .sendErrorWith _ => MessageHandle.failed "Relay failed"

/-- Model of `WeakSendableMessage for RelayMessage::weak_send_to`
(src/message.rs:224-234): upgrade, delegate when alive; when the actor is
dead, fire `()` through a fresh channel and return a success handle ("just
return success since relay doesn't expect response"). -/
def relayWeakSendTo (upgraded : Bool) (out : SendOutcome) : MessageHandle Unit :=
  if upgraded then relaySendTo out
  else MessageHandle.success (.fired ())

/-- The (unique) `FromError<ActorError>` shape for the unit reply type used
by relays: every unit value is the failure-shaped reply. -/
def unitFromErr (_e : ActorError) : Unit := ()

/-! ### Theorems settling the claims -/

/-- C1: `cancel_with_reason` transitions a `Running` node to
`Cancelled(reason)` and, exactly when that transition occurred, recursively
cancels every child present in the node's children list at that moment with a
clone of the same reason; an already-`Cancelled` node is left entirely
unchanged, so a later cancel never changes the stored reason (first cancel
wins), and after any cancel the node reports cancelled, with the new reason
exactly when it was previously running. -/
theorem c1_cancel_with_reason {T : Type} (r r0 : CancelReason T)
    (cs cs' : List (Tree T)) (t : Tree T) :
    cancelWithReason r (.node .running cs)
      = .node (.cancelled r) (cs.map (cancelWithReason r)) ∧
    cancelWithReason r (.node (.cancelled r0) cs') = .node (.cancelled r0) cs' ∧
    (cancelWithReason r t).isCancelled = true ∧
    (cancelWithReason r t).reasonOf
      = (if t.isCancelled then t.reasonOf else some r) := by
  refine ⟨?_, rfl, isCancelled_cancelWithReason r t, ?_⟩
  · simp [cancelWithReason, cancelChildren_eq_map]
  · match t with
    | .node .running cs'' => rfl
    | .node (.cancelled r1) cs'' => rfl

/-- C8: `child()` on a `Running` token enrolls a fresh running node in the
parent's children list and returns it, so a subsequent cancel of the parent
cancels the enrolled child with the same reason; `child()` on an
already-cancelled token returns a clone of the node itself, sharing the
cancelled state, which reports `is_cancelled()` with the parent's reason. -/
theorem c8_child_token {T : Type} (r r0 : CancelReason T)
    (cs cs' : List (Tree T)) :
    Tree.child (Tree.node (T := T) .running cs)
      = (.node .running (cs ++ [.node .running []]), .node .running []) ∧
    cancelWithReason r (Tree.child (Tree.node (T := T) .running cs)).1
      = .node (.cancelled r)
          (cs.map (cancelWithReason r) ++ [.node (.cancelled r) []]) ∧
    cancelWithReason r (Tree.child (Tree.node (T := T) .running cs)).2
      = .node (.cancelled r) [] ∧
    Tree.child (Tree.node (T := T) (.cancelled r0) cs')
      = (.node (.cancelled r0) cs', .node (.cancelled r0) cs') ∧
    (Tree.child (Tree.node (T := T) (.cancelled r0) cs')).2.isCancelled = true ∧
    (Tree.child (Tree.node (T := T) (.cancelled r0) cs')).2.reasonOf
      = (Tree.node (T := T) (.cancelled r0) cs').reasonOf := by
  refine ⟨rfl, ?_, rfl, rfl, rfl, rfl⟩
  simp [Tree.child, cancelWithReason, cancelChildren_eq_map]

/-- C3: the final release of the refcounted `LinkState` cancels the actor's
token with `Cancel::default()`: a running token becomes cancelled carrying
the default value, its children are cancelled with the same reason, the
cancellation observer then fires with that reason and the next cycle that
polls the cancellation branch breaks the loop with it (the loop terminates);
a token already cancelled at drop time is left unchanged. -/
theorem c3_last_link_drop {M C : Type} (d : C) (loc : Nat)
    (cs cs' : List (Tree C)) (r0 : CancelReason C) (dr : CancelReason C)
    (msg : Option M) :
    (linkStateDrop d loc (.node .running cs)).isCancelled = true ∧
    (linkStateDrop d loc (.node .running cs)).reasonOf = some ⟨d, loc⟩ ∧
    linkStateDrop d loc (.node .running cs)
      = .node (.cancelled ⟨d, loc⟩) (cs.map (cancelWithReason ⟨d, loc⟩)) ∧
    cycle (M := M) dr (observerEvent (linkStateDrop d loc (.node .running cs)))
        msg .cancelBranch
      = .breakWith ⟨d, loc⟩ ∧
    linkStateDrop d loc (.node (.cancelled r0) cs') = .node (.cancelled r0) cs' := by
  refine ⟨rfl, rfl, ?_, rfl, rfl⟩
  simp [linkStateDrop, cancelWithReason, cancelChildren_eq_map]

/-- C4: each cycle of the actor loop selects over exactly three events: the
cancellation branch breaks with the observed reason, or with the default
reason when `cancelled_or_dropped` yields `None`; completion of `tick()`
continues; an inbound `Some(msg)` is dispatched via `A::handle` and the loop
continues; an inbound `None` (all senders dropped) breaks with the default
reason. -/
theorem c4_cycle_select {M C : Type} (dr r : CancelReason C) (m : M)
    (msg : Option M) (obs : ObserverResult C) :
    cycle dr (.cancelledWith r) msg .cancelBranch = .breakWith r ∧
    cycle dr .dropped msg .cancelBranch = .breakWith dr ∧
    cycle (M := M) dr obs msg .tickBranch = .continueAfterTick ∧
    cycle dr obs (some m) .msgBranch = .continueAfterHandle m ∧
    cycle (M := M) dr obs none .msgBranch = .breakWith dr :=
  ⟨rfl, rfl, rfl, rfl, rfl⟩

/-- C5: `reply()` yields `SendFailed` on a handle in the `Failed` state;
otherwise it awaits the reply receiver: it yields the handler's reply value
when the sender fired, `RecvFailed` when the sender was dropped without
firing, and, with a configured timeout, `Timeout{duration}` exactly when the
timer elapses while the receiver is still pending (a ready receiver wins over
the timer). -/
theorem c5_message_handle_reply {R : Type} (e : String) (tf : Bool)
    (env : Except Unit R) (v : R) (d : Nat) :
    (MessageHandle.failed (R := R) e).reply tf env
      = .error (.sendFailedErr e) ∧
    (MessageHandle.success (ReceiverState.fired v)).reply tf env = .ok v ∧
    (MessageHandle.success (R := R) .closed).reply tf env
      = .error .recvFailedErr ∧
    (MessageHandle.success (R := R) .pending).reply tf (.ok v) = .ok v ∧
    (MessageHandle.success (R := R) .pending).reply tf (.error ())
      = .error .recvFailedErr ∧
    ((MessageHandle.success (R := R) .pending).withTimeout d).reply true env
      = .error (.timeoutErr d) ∧
    ((MessageHandle.success (ReceiverState.fired v)).withTimeout d).reply tf env
      = .ok v ∧
    ((MessageHandle.success (R := R) .pending).withTimeout d).reply false (.ok v)
      = .ok v ∧
    ((MessageHandle.success (R := R) .pending).withTimeout d).reply false
        (.error ())
      = .error .recvFailedErr ∧
    ((MessageHandle.success (R := R) .closed).withTimeout d).reply tf env
      = .error .recvFailedErr := by
  refine ⟨rfl, rfl, rfl, rfl, rfl, rfl, rfl, rfl, rfl, ?_⟩
  cases tf <;> rfl

/-- C9: `Envelope::map(f)` rewrites only the payload: the resulting
envelope's value is `f` of the original value and its reply sender is exactly
the original reply sender. -/
theorem c9_envelope_map_frame {T U : Type} (e : Envelope T) (f : T → U) :
    (e.map f).value = f e.value ∧ (e.map f).reply = e.reply :=
  ⟨rfl, rfl⟩

/-- C6: every weak send first attempts `upgrade()` (when a strong link
exists the operation is exactly the strong `send_to`); when upgrade fails,
envelope and handler sends return a handle whose reply is the synthesized
`Reply::from_err(ActorError::Dead)` value, and a relay send returns a handle
whose reply is the unit reply type's (unique) dead-shaped value; in all three
dead cases the reply is already fired, so the caller's await resolves
immediately to that value whatever the environment does — it never suspends
waiting on the dead actor. -/
theorem c6_weak_send_dead {R : Type} (fe : ActorError → R) (out : SendOutcome)
    (tf : Bool) (env : Except Unit R) (envU : Except Unit Unit) :
    envelopeWeakSendTo true out fe = envelopeSendTo out ∧
    handlerWeakSendTo true out fe = handlerSendTo out ∧
    relayWeakSendTo true out = relaySendTo out ∧
    envelopeWeakSendTo false out fe
      = MessageHandle.success (.fired (fe .dead)) ∧
    handlerWeakSendTo false out fe
      = MessageHandle.success (.fired (fe .dead)) ∧
    relayWeakSendTo false out
      = MessageHandle.success (.fired (unitFromErr .dead)) ∧
    (envelopeWeakSendTo false out fe).reply tf env = .ok (fe .dead) ∧
    (handlerWeakSendTo false out fe).reply tf env = .ok (fe .dead) ∧
    (relayWeakSendTo false out).reply tf envU = .ok (unitFromErr .dead) ∧
    MessageHandle.receiverSuspends
        (ReceiverState.fired (fe ActorError.dead)) = false :=
  ⟨rfl, rfl, rfl, rfl, rfl, rfl, rfl, rfl, rfl, rfl⟩

/-- C10: a weak envelope or handler send that finds the actor dead returns a
`MessageHandle` constructed in the success state — `was_sent()` is `true` and
`send_error()` is `None` even though no message reached any actor — and the
failure is visible only as the `ActorError::Dead`-shaped value carried inside
the reply. -/
theorem c10_dead_handle_success_state {R : Type} (fe : ActorError → R)
    (out : SendOutcome) :
    (envelopeWeakSendTo false out fe).was_sent = true ∧
    (envelopeWeakSendTo false out fe).sendErrorOf = none ∧
    (handlerWeakSendTo false out fe).was_sent = true ∧
    (handlerWeakSendTo false out fe).sendErrorOf = none ∧
    (envelopeWeakSendTo false out fe).receiver
      = some (.fired (fe .dead)) ∧
    (handlerWeakSendTo false out fe).receiver
      = some (.fired (fe .dead)) :=
  ⟨rfl, rfl, rfl, rfl, rfl, rfl⟩

/-- C7 counterexample: on a handle whose send succeeded but whose reply
sender was dropped without firing, `try_reply()` yields
`SendFailed("Channel closed")`, not the `RecvFailed` the claim states. -/
theorem c7_try_reply_counterexample :
    (MessageHandle.tryReply (MessageHandle.success (R := Nat) .closed)).1
      = .error (.sendFailedErr "Channel closed") ∧
    (MessageHandle.tryReply (MessageHandle.success (R := Nat) .closed)).1
      ≠ .error .recvFailedErr := by
  refine ⟨rfl, ?_⟩
  intro h
  simp [MessageHandle.tryReply, MessageHandle.success, MessageHandle.tryRecv] at h

/-- C7 (amended): `try_reply()` returns `Ok(None)` when the reply is not yet
ready — retaining the receiver, so a subsequent `reply()` behaves as on the
original handle — `Ok(Some(value))` when the reply is ready,
`SendFailed(error)` when the send never occurred, and
`SendFailed("Channel closed")` (not `RecvFailed`) when the reply sender was
dropped without firing. -/
theorem c7_try_reply {R : Type} (e : String) (v : R) :
    (MessageHandle.tryReply (MessageHandle.failed (R := R) e)).1
      = .error (.sendFailedErr e) ∧
    (MessageHandle.tryReply (MessageHandle.success (ReceiverState.fired v))).1
      = .ok (some v) ∧
    MessageHandle.tryReply (MessageHandle.success (R := R) .pending)
      = (.ok none, MessageHandle.success .pending) ∧
    (∀ (tf : Bool) (env : Except Unit R),
      ((MessageHandle.tryReply (MessageHandle.success (R := R) .pending)).2).reply
          tf env
        = (MessageHandle.success (R := R) .pending).reply tf env) ∧
    (MessageHandle.tryReply (MessageHandle.success (R := R) .closed)).1
      = .error (.sendFailedErr "Channel closed") :=
  ⟨rfl, rfl, rfl, fun _ _ => rfl, rfl⟩

/-- Running a handler against an empty cell leaves the cell empty and spawns
nothing; against a full cell it either leaves the sender in place (spawning
nothing) or moves it into exactly one spawned replying future; and under the
async-reply protocol the returned value is async-shaped exactly when the cell
ends up empty. -/
theorem runHandler_cell_spec {T : Type} (prog : HandlerProg T) :
    ∀ c : Option Nat,
      (c = none →
        (runHandler prog c).1 = none ∧ (runHandler prog c).2.1 = []) ∧
      (∀ s, c = some s →
        ((runHandler prog c).1 = some s ∧ (runHandler prog c).2.1 = []) ∨
        ((runHandler prog c).1 = none ∧ (runHandler prog c).2.1 = [s])) ∧
      (protocolFrom prog c.isSome = true →
        ((runHandler prog c).2.2.is_async = true ↔ (runHandler prog c).1 = none)) := by
  induction prog with
  | ret v =>
      intro c
      refine ⟨?_, ?_, ?_⟩
      · intro hc; subst hc; exact ⟨rfl, rfl⟩
      · intro s hc; subst hc; exact Or.inl ⟨rfl, rfl⟩
      · intro hp
        cases c with
        | none =>
            simp only [runHandler]
            simp only [protocolFrom, Option.isSome_none, Bool.not_false,
              beq_iff_eq] at hp
            simp [hp]
        | some s =>
            simp only [runHandler]
            simp only [protocolFrom, Option.isSome_some, Bool.not_true,
              beq_iff_eq] at hp
            simp [hp]
  | replyAsyncThen k ih =>
      intro c
      cases c with
      | none =>
          have h := ih (AnyhowResult.from_err .replyTaken) none
          refine ⟨?_, ?_, ?_⟩
          · intro _
            simpa only [runHandler] using h.1 rfl
          · intro s hc; exact absurd hc (by simp)
          · intro hp
            have hiff := h.2.2 (by simpa only [protocolFrom] using hp)
            simpa only [runHandler] using hiff
      | some s0 =>
          have h := ih (AnyhowResult.from_err .asyncReply) none
          have hcell := h.1 rfl
          refine ⟨?_, ?_, ?_⟩
          · intro hc; exact absurd hc (by simp)
          · intro s hc
            have hs : s = s0 := (Option.some.inj hc).symm
            subst hs
            refine Or.inr ?_
            simp only [runHandler]
            exact ⟨hcell.1, by simp [hcell.2]⟩
          · intro hp
            have hiff := h.2.2 (by simpa only [protocolFrom] using hp)
            simp only [runHandler]
            constructor
            · intro _; exact hcell.1
            · intro _
              exact hiff.mpr hcell.1

/-- C2: under Multi dispatch with a handler that follows the async-reply
protocol, the take-once reply cell is consumed exactly once by the time the
dispatched future completes (no panic, and the number of dispatcher sends
plus spawned replying futures is one); the dispatcher takes the cell and
sends the handler's returned value through the envelope's sender exactly when
that value's `is_async()` is false; when `is_async()` is true the dispatcher
does not touch the cell, the sender having been moved into the single
replying future spawned by `reply_async`; for the standard `anyhow::Result`
reply, `is_async()` is true precisely when the carried error is the
`ActorError::AsyncReply` marker; and a `reply_async` call that finds the cell
already taken returns a reply built from `ActorError::ReplyTaken` without
spawning anything. -/
theorem c2_multi_dispatch {T : Type} (prog : HandlerProg T) (s0 : Nat)
    (hp : protocolFrom prog true = true) :
    (multiHandle prog s0).2 ≠ DispatchEnd.panicked ∧
    (multiHandle prog s0).1.length + sentCount (multiHandle prog s0).2 = 1 ∧
    (multiHandle prog s0).2
      = (if (runHandler prog (some s0)).2.2.is_async then .asyncHandoff
         else .sentBy s0 (runHandler prog (some s0)).2.2) ∧
    (multiHandle prog s0).1
      = (if (runHandler prog (some s0)).2.2.is_async then [s0] else []) ∧
    (∀ w : AnyhowResult T, w.is_async = true ↔ w = .err (some .asyncReply)) ∧
    replyAsyncCall (T := T) none
      = (none, none, .err (some .replyTaken)) := by
  have hchar : ∀ w : AnyhowResult T,
      w.is_async = true ↔ w = .err (some .asyncReply) := by
    intro w
    cases w with
    | ok v => simp [AnyhowResult.is_async]
    | err e =>
        cases e with
        | none => simp [AnyhowResult.is_async]
        | some a => cases a <;> simp [AnyhowResult.is_async]
  have h := runHandler_cell_spec prog (some s0)
  have hiff := h.2.2 (by simpa using hp)
  have hdisj := h.2.1 s0 rfl
  cases hdisj with
  | inl hfull =>
      have hasync : (runHandler prog (some s0)).2.2.is_async = false := by
        by_contra hne
        have := hiff.mp (Bool.of_not_eq_false hne)
        rw [hfull.1] at this
        exact Option.some_ne_none s0 this
      refine ⟨?_, ?_, ?_, ?_, hchar, rfl⟩ <;>
        simp [multiHandle, hasync, hfull.1, hfull.2, sentCount]
  | inr htaken =>
      have hasync : (runHandler prog (some s0)).2.2.is_async = true :=
        hiff.mpr htaken.1
      refine ⟨?_, ?_, ?_, ?_, hchar, rfl⟩ <;>
        simp [multiHandle, hasync, htaken.1, htaken.2, sentCount]

/-- Witness for C2 at a concrete protocol-following handler: the handler
that immediately returns `Ok(0)` with sender id 7. -/
theorem c2_multi_dispatch_witness :
    protocolFrom (HandlerProg.ret (AnyhowResult.ok (0 : Nat))) true = true ∧
    ((multiHandle (HandlerProg.ret (AnyhowResult.ok (0 : Nat))) 7).2
        ≠ DispatchEnd.panicked ∧
      (multiHandle (HandlerProg.ret (AnyhowResult.ok (0 : Nat))) 7).1.length
          + sentCount (multiHandle (HandlerProg.ret (AnyhowResult.ok (0 : Nat))) 7).2
        = 1 ∧
      (multiHandle (HandlerProg.ret (AnyhowResult.ok (0 : Nat))) 7).2
        = (if (runHandler (HandlerProg.ret (AnyhowResult.ok (0 : Nat)))
                (some 7)).2.2.is_async then .asyncHandoff
           else .sentBy 7 (runHandler (HandlerProg.ret (AnyhowResult.ok (0 : Nat)))
                (some 7)).2.2) ∧
      (multiHandle (HandlerProg.ret (AnyhowResult.ok (0 : Nat))) 7).1
        = (if (runHandler (HandlerProg.ret (AnyhowResult.ok (0 : Nat)))
                (some 7)).2.2.is_async then [7] else []) ∧
      (∀ w : AnyhowResult Nat, w.is_async = true ↔ w = .err (some .asyncReply)) ∧
      replyAsyncCall (T := Nat) none
        = (none, none, .err (some .replyTaken))) :=
  ⟨rfl, c2_multi_dispatch (HandlerProg.ret (AnyhowResult.ok (0 : Nat))) 7 rfl⟩

end Actor12
